import Mathlib

/-!
# Orpheus audio engine — formal model

A shallow embedding of the Orpheus audio-processing core
(`src/audio_processing/models/{mixer,layer_info,audio}.py` and
`src/audio_processing/routes/workspace.py`) in Lean 4, with theorems
settling the specification claims about it.

Modelling conventions:
* Python floats are modelled as `ℚ` (all the arithmetic under scrutiny is
  exact branching/affine arithmetic, no rounding claims are made);
  `20·log10` and `10^x` in the compressor are abstracted as explicit
  function parameters because the claims only concern how the code wires
  these functions up, not real-analytic facts about them.
* int16 PCM samples are modelled as `Int`.
* The randomness consumed at loop boundaries (shuffle choice,
  re-evaluation of `_should_play` by `LayerInfo.check_initial_weights`
  over the whole environment) is supplied by an oracle indexed by the
  number of loop boundaries crossed so far.
* Several accessor spellings in the source do not exist at their call
  sites and raise `AttributeError` at runtime (`layer_info.py` line 274
  `get_effective_cooldown_cycles`, line 114 `get_effective_frequency`,
  line 83 `get_effective_volume`; `audio.py` line 446 `base_layer` — the
  defined names are the properties `effective_cooldown_cycles`,
  `effective_frequency`, `effective_volume` and the field `_base_layer`).
  The model represents these raises faithfully: inside `get_next_chunk`
  they route to the `except` handler's zero chunk (lines 342–344) with
  the state mutations made so far kept, and `effective_volume`
  propagates them as `PyResult.raised`.

The file is organised as definitions first, then the theorems.
-/

namespace Orpheus

/-! ## Enumerations (`audio.py`, `LayerMode` / `PlayState`) -/

inductive LayerMode where
  | SHUFFLE
  | SEQUENCE
  | SINGLE
deriving DecidableEq, Repr

inductive PlayState where
  | PLAYING
  | STOPPED
deriving DecidableEq, Repr

/-! ## Mixer constants (`mixer.py` lines 28–40)

`AudioMixer.SAMPLE_RATE = 48000`, `CHANNELS = 2`, `CHUNK_MS = 20`,
`TARGET_BUFFER_MS = 100`;
`chunk_samples = int(SAMPLE_RATE * (CHUNK_MS / 1000))`,
`target_buffer_chunks = TARGET_BUFFER_MS // CHUNK_MS`. -/

def SAMPLE_RATE : Nat := 48000

def CHANNELS : Nat := 2

def CHUNK_MS : Nat := 20

def TARGET_BUFFER_MS : Nat := 100

def chunk_samples : Nat := SAMPLE_RATE * CHUNK_MS / 1000

def target_buffer_chunks : Nat := TARGET_BUFFER_MS / CHUNK_MS

/-! ## Environment fade (`audio.py`, `Environment.is_fading` /
`Environment.fade_progress` / `start_fade` / `update_fade_state`,
lines 514–617) -/

/-- The fade-relevant part of an `Environment`: its runtime fade window
(`_fade_start_time`, `_fade_end_time`) and `play_state`. -/
structure EnvFade where
  fadeStart : Option ℚ
  fadeEnd : Option ℚ
  playState : PlayState
deriving DecidableEq, Repr

/-- `Environment.is_fading`: false unless both timestamps are present and
`fade_start ≤ now < fade_end`. -/
def isFading (e : EnvFade) (now : ℚ) : Bool :=
  match e.fadeStart, e.fadeEnd with
  | some s, some t => decide (s ≤ now) && decide (now < t)
  | _, _ => false

/-- `Environment.fade_progress`: when no fade window is active, `1.0` for
PLAYING and `0.0` for STOPPED; otherwise the clamped linear progress, used
directly for a fade-in (PLAYING) and reversed for a fade-out (STOPPED). -/
def fadeProgress (e : EnvFade) (now : ℚ) : ℚ :=
  if isFading e now = false ∨ e.fadeStart = none ∨ e.fadeEnd = none then
    if e.playState = PlayState.PLAYING then 1 else 0
  else
    match e.fadeStart, e.fadeEnd with
    | some s, some t =>
      let raw : ℚ := max 0 (min 1 ((now - s) / (t - s)))
      if e.playState = PlayState.PLAYING then raw else 1 - raw
    | _, _ => if e.playState = PlayState.PLAYING then 1 else 0

/-- `Environment.start_fade`: stamps a fresh fade window of
`crossfade_duration` (already converted to the time unit) at `now`. -/
def startFade (e : EnvFade) (now dur : ℚ) : EnvFade :=
  { e with fadeStart := some now, fadeEnd := some (now + dur) }

/-- `Environment.update_fade_state`: clears the window when the fade is
active and its progress has saturated (≥ 1 for a fade-in, ≤ 0 for a
fade-out); otherwise leaves the environment unchanged. -/
def updateFadeState (e : EnvFade) (now : ℚ) : EnvFade :=
  if isFading e now = false then e
  else
    let progress := fadeProgress e now
    let fadeComplete :=
      if e.playState = PlayState.PLAYING then decide (1 ≤ progress)
      else decide (progress ≤ 0)
    if fadeComplete then { e with fadeStart := none, fadeEnd := none } else e

/-! ## Layer runtime (`layer_info.py`, `LayerInfo`)

`LayerInfo` holds the int16 PCM of the active sound plus the per-layer
loop/cooldown state. The fields mirror `LayerInfo.__init__` plus the
`_is_finished` attribute that `AudioMixer.play_soundboard_sound` attaches
to soundboard runtimes. -/

structure ChunkState where
  position : Nat
  audioPosition : Nat
  activeSoundIndex : Nat
  shouldPlay : Bool
  inCooldown : Bool
  cooldownElapsed : Nat
  isFinished : Bool
deriving DecidableEq, Repr

/-- The per-runtime configuration read (but not written) by
`LayerInfo.get_next_chunk`: the decoded int16 audio, the layer's
`loop_length_ms`, mode, `selected_sound_index`, the number of sounds, and
the layer volume — the only volume the `volume` property can return
without raising (see `getNextChunk`). -/
structure LayerCfg where
  audioData : List (Int × Int)
  loopLengthMs : Option Nat
  mode : LayerMode
  selectedSoundIndex : Nat
  numSounds : Nat
  layerVolume : ℚ

/-- The randomness the loop-point code would consume: the
`random.choices` shuffle draw (line 117) and the environment-wide
`check_initial_weights` re-decision of `_should_play` (lines 293–311).
The `AttributeError` raised at line 274 — and already at line 114 in
SHUFFLE mode — aborts every loop-boundary crossing before either is
reached, so no oracle value is ever consulted; the parameter is kept in
the signatures to mark where randomness would enter. -/
structure LoopOracle where
  shuffleChoice : Nat → Nat
  recheck : Nat → Option Bool

/-- `LayerInfo.loop_length_samples`: `loop_length_ms or 8000` (Python
truthiness: both `None` and `0` fall back to the 8-second default), then
`int(48000 * (ms / 1000))`. -/
def loopLengthSamples (ms? : Option Nat) : Nat :=
  let ms := match ms? with
    | none => 8000
    | some 0 => 8000
    | some m => m
  SAMPLE_RATE * ms / 1000

/-- `LayerInfo.update_active_sound_index` (lines 96–125) as executed:
early return for an empty sound list; SINGLE selects
`selected_sound_index` and SEQUENCE increments modulo the number of
sounds, each followed by the out-of-range clamp to 0 (lines 123–125); the
SHUFFLE arm raises `AttributeError` at line 114
(`sound.get_effective_frequency()` — `LayerSound` defines only the
property `effective_frequency`) before the index is written, leaving it
unchanged (inside `get_next_chunk` the raise is swallowed by the handler
that line 274 would trigger in every mode anyway). -/
def updateActiveSoundIndex (cfg : LayerCfg) (idx : Nat) : Nat :=
  if cfg.numSounds = 0 then idx
  else
    match cfg.mode with
    | LayerMode.SINGLE =>
      if cfg.numSounds ≤ cfg.selectedSoundIndex then 0 else cfg.selectedSoundIndex
    | LayerMode.SEQUENCE =>
      if cfg.numSounds ≤ (idx + 1) % cfg.numSounds then 0 else (idx + 1) % cfg.numSounds
    | LayerMode.SHUFFLE => idx

/-- Truncation toward zero of a rational, modelling a C float→int cast. -/
def ratTrunc (q : ℚ) : Int :=
  if 0 ≤ q then ⌊q⌋ else ⌈q⌉

/-- `astype(np.int16)` wrap-around into `[-32768, 32767]`. -/
def wrap16 (z : Int) : Int :=
  (z + 32768) % 65536 - 32768

/-- Scaling an int16 sample by a float volume and casting back to int16
(`(chunk.astype(np.float32) * current_volume).astype(np.int16)`). -/
def scale16 (v : ℚ) (x : Int) : Int :=
  wrap16 (ratTrunc (v * x))

/-- `LayerInfo.get_next_chunk(chunk_size)` (lines 223–344) as executed.
The `while` loop runs at most one iteration:

* A boundary-crossing call (`_position + chunk_size > loop_length_samples`
  with a nonzero request) takes the loop-point arm (lines 240–311): the
  pre-reset copy and position increments are overwritten by the resets at
  lines 266–267, `update_active_sound_index` runs, and then line 274
  (`self.layer.get_effective_cooldown_cycles()` — `Layer` defines only
  the property `effective_cooldown_cycles`) raises `AttributeError`; the
  `except` handler (lines 342–344) returns a zero chunk of the full shape
  while the state mutations made so far persist. The cooldown accounting
  (lines 278–291) and the environment recheck (lines 293–311) are never
  reached.
* Otherwise the single interior iteration (lines 313–332) consumes the
  whole request, copying audio while playing, and the closing volume step
  (lines 334–338) runs: with sounds present, `self.volume` clamps an
  out-of-range active index (`get_layer_sound`, lines 90–94) and then
  raises at line 83 (`sound.get_effective_volume()` — the property is
  `effective_volume`), so the handler again returns full-shape zeros;
  with no sounds the layer volume scales the chunk when it is not 1.0.

Every path returns a chunk of exactly `chunk_size` stereo int16 samples,
never `None`. -/
def getNextChunk (cfg : LayerCfg) (oracle : LoopOracle) (st : ChunkState)
    (chunkSize : Nat) : ChunkState × List (Int × Int) :=
  if 0 < chunkSize ∧ loopLengthSamples cfg.loopLengthMs < st.position + chunkSize then
    ({ st with position := 0, audioPosition := 0,
               activeSoundIndex := updateActiveSoundIndex cfg st.activeSoundIndex },
      List.replicate chunkSize ((0 : Int), (0 : Int)))
  else
    let thisIter := min chunkSize (loopLengthSamples cfg.loopLengthMs - st.position)
    let copied :=
      if st.shouldPlay = true ∧ st.audioPosition < cfg.audioData.length then
        min thisIter (cfg.audioData.length - st.audioPosition)
      else 0
    let seg := (cfg.audioData.drop st.audioPosition).take copied
    let chunk := seg ++ List.replicate (chunkSize - seg.length) ((0 : Int), (0 : Int))
    let st' := { st with position := st.position + thisIter,
                         audioPosition := st.audioPosition + copied }
    if st'.shouldPlay = true then
      if cfg.numSounds = 0 then
        (st',
          if cfg.layerVolume ≠ 1 then
            chunk.map (fun p => (scale16 cfg.layerVolume p.1, scale16 cfg.layerVolume p.2))
          else chunk)
      else
        (if cfg.numSounds ≤ st'.activeSoundIndex then { st' with activeSoundIndex := 0 }
          else st',
          List.replicate chunkSize ((0 : Int), (0 : Int)))
    else (st', chunk)

/-! ## Effective volume (`audio.py`, `LayerSound.effective_volume`,
lines 122–160, with the preset lookup of `Layer.get_active_preset_layer`
and `Environment.get_active_preset`) -/

/-- A preset's sparse per-sound override (`presets.py`, `PresetSound`). -/
structure PresetSoundM where
  id : String
  volume : Option ℚ
deriving Repr

/-- A preset's sparse per-layer override (`presets.py`, `PresetLayer`);
only the fields `effective_volume` consults. -/
structure PresetLayerM where
  id : String
  volume : Option ℚ
  sounds : Option (List PresetSoundM)
deriving Repr

/-- A preset (`presets.py`, `Preset`). -/
structure PresetM where
  id : String
  layers : List PresetLayerM
deriving Repr

/-- A registered sound file (`audio.py`, `SoundFile`); only the fields
`effective_volume` consults. -/
structure SoundFileM where
  id : String
  peakVolume : ℚ
deriving Repr

/-- A sound within a layer (`audio.py`, `LayerSound`). -/
structure LayerSoundM where
  id : String
  fileId : String
  volume : ℚ
deriving Repr

/-- A layer (`audio.py`, `Layer`); only the fields `effective_volume`
consults. -/
structure LayerM where
  id : String
  volume : ℚ
deriving Repr

/-- An environment's preset selection (`audio.py`, `Environment`). -/
structure EnvM where
  presets : List PresetM
  activePresetId : Option String
deriving Repr

/-- The app state fields `effective_volume` and the final mix stage
consult (`audio.py`, `AppState` / `Effects`). -/
structure AppStateM where
  soundFiles : List SoundFileM
  normalizeEnabled : Bool
  masterVolume : ℚ
deriving Repr

/-- `Environment.get_active_preset`: the first preset whose id equals
`active_preset_id` (`None` matches nothing). -/
def getActivePreset (env : EnvM) : Option PresetM :=
  match env.activePresetId with
  | none => none
  | some a => env.presets.find? (fun p => p.id == a)

/-- The outcome of a Python evaluation that may raise `AttributeError`. -/
inductive PyResult (α : Type) where
  | ok (a : α)
  | raised
deriving DecidableEq, Repr

/-- `Layer.get_active_preset_layer` (audio.py lines 431–448) as executed:
no environment-active preset or no matching override returns `None`; when
an override **does** match, line 446 reads `preset_layer.base_layer` — a
field `PresetLayer` does not define (its field is `_base_layer`) — and
the call raises `AttributeError`. -/
def getActivePresetLayer (env : EnvM) (layer : LayerM) : PyResult (Option PresetLayerM) :=
  match getActivePreset env with
  | none => PyResult.ok none
  | some p =>
    match p.layers.find? (fun pl => pl.id == layer.id) with
    | none => PyResult.ok none
    | some _ => PyResult.raised

/-- `LayerSound.effective_volume` (audio.py lines 122–160) as executed: a
raising preset lookup propagates (the property has no handler); otherwise
the lookup returned `None`, so the preset-override assignments at lines
137–143 are dead code and the base volumes stand; the sound volume is
divided by the referenced file's `peak_volume` when normalization is
enabled, the file is registered and its peak is positive; the result is
`layer_volume * sound_volume`. (The Python normalize guard also requires
the layer's environment and app-state back references, which the model
takes as the `env`/`app` arguments.) `master_volume` is never consulted. -/
def effectiveVolume (app : AppStateM) (env : EnvM) (layer : LayerM)
    (sound : LayerSoundM) : PyResult ℚ :=
  match getActivePresetLayer env layer with
  | PyResult.raised => PyResult.raised
  | PyResult.ok _ =>
    let sv :=
      if app.normalizeEnabled then
        match app.soundFiles.find? (fun sf => sf.id == sound.fileId) with
        | some sf => if 0 < sf.peakVolume then sound.volume / sf.peakVolume else sound.volume
        | none => sound.volume
      else sound.volume
    PyResult.ok (layer.volume * sv)

/-- Spec-side preset-layer lookup (the resolution that audio.py lines
431–448 and the `effective_volume` docstring document as intended), used
only to state the values the claim expects. -/
def specPresetLayer (env : EnvM) (layer : LayerM) : Option PresetLayerM :=
  (getActivePreset env).bind (fun p => p.layers.find? (fun pl => pl.id == layer.id))

/-- Spec-side `eff_layer_volume(layer) = preset_layer.volume ?? layer.volume`. -/
def effLayerVolume (env : EnvM) (layer : LayerM) : ℚ :=
  match specPresetLayer env layer with
  | some pl => pl.volume.getD layer.volume
  | none => layer.volume

/-- Spec-side `eff_sound_volume(sound) = preset_sound.volume ?? sound.volume`. -/
def effSoundVolume (env : EnvM) (layer : LayerM) (sound : LayerSoundM) : ℚ :=
  match (specPresetLayer env layer).bind
      (fun pl => (pl.sounds.getD []).find? (fun ps => ps.id == sound.id)) with
  | some ps => ps.volume.getD sound.volume
  | none => sound.volume

/-- Clipping a float sample to int16 at the end of the mix
(`np.clip(mixed_chunk_float * 32768.0, -32768, 32767).astype(np.int16)`). -/
def clipSample (q : ℚ) : Int :=
  ratTrunc (max (-32768) (min 32767 (q * 32768)))

/-- The final mix stage of `_process_audio` (mixer.py lines 497–503):
multiply the float mix by `master_volume`, then clip-convert to int16.
This is the only place the master volume is applied. -/
def applyMasterAndClip (master : ℚ) (x : List (ℚ × ℚ)) : List (Int × Int) :=
  (x.map (fun p => (p.1 * master, p.2 * master))).map
    (fun p => (clipSample p.1, clipSample p.2))

/-! ## Compressor (`mixer.py`, `AudioMixer._apply_compressor`,
lines 122–193)

`log10` and `10^x` are abstracted as function parameters (`log10`,
`pow10`); the claims concern only how the code combines them. -/

/-- The compressor settings (`Effects.Compressor`). -/
structure CompressorCfg where
  lowThreshold : ℚ
  highThreshold : ℚ
  ratio : ℚ
deriving Repr

/-- The per-channel frame peak `np.max(np.abs(chunk), axis=0)`. -/
def listPeak (xs : List ℚ) : ℚ :=
  xs.foldr (fun x acc => max |x| acc) 0

/-- `np.clip(·, -1.0, 1.0)` on one sample. -/
def clipUnit (q : ℚ) : ℚ :=
  max (-1) (min 1 q)

/-- The target-gain computation of `_apply_compressor` (lines 165–181):
1.0 strictly between the thresholds; upward compression
`10^(((low − peak_dB)/ratio)/20)` at or below the low threshold; downward
compression `10^((−(peak_dB − high)·(1 − 1/ratio))/20)` otherwise. -/
def compressorTargetGain (pow10 : ℚ → ℚ) (c : CompressorCfg) (peakDb : ℚ) : ℚ :=
  if c.lowThreshold < peakDb ∧ peakDb < c.highThreshold then 1
  else if peakDb ≤ c.lowThreshold then
    pow10 (((c.lowThreshold - peakDb) / c.ratio) / 20)
  else
    pow10 ((-(peakDb - c.highThreshold) * (1 - 1 / c.ratio)) / 20)

/-- Spec-side target gain, in the claim's case order: `10^(((low −
peak_dB)/ratio)/20)` when `peak_dB ≤ low`, `10^((−(peak_dB − high)·(1 −
1/ratio))/20)` when `peak_dB ≥ high`, and 1.0 strictly between. -/
def specTargetGain (pow10 : ℚ → ℚ) (c : CompressorCfg) (peakDb : ℚ) : ℚ :=
  if peakDb ≤ c.lowThreshold then
    pow10 (((c.lowThreshold - peakDb) / c.ratio) / 20)
  else if c.highThreshold ≤ peakDb then
    pow10 ((-(peakDb - c.highThreshold) * (1 - 1 / c.ratio)) / 20)
  else 1

/-- `_apply_compressor` restricted to one channel: an early pass-through
when `ratio == 1.0` (before any peak or clip processing); a skipped
channel when its frame peak is 0 (the final whole-frame `np.clip` still
applies); otherwise `peak_dB = 20·log10(peak)`, the target gain, the
smoothed gain `0.9·prev + (1 − 0.9)·target` stored back into the channel
state, multiplication, and the clip to `[−1, 1]`. Returns the processed
samples and the channel's stored gain. -/
def applyCompressorChannel (pow10 log10 : ℚ → ℚ) (c : CompressorCfg)
    (prevGain : ℚ) (xs : List ℚ) : List ℚ × ℚ :=
  if c.ratio = 1 then (xs, prevGain)
  else
    let peak := listPeak xs
    if peak = 0 then (xs.map clipUnit, prevGain)
    else
      let peakDb := 20 * log10 peak
      let target := compressorTargetGain pow10 c peakDb
      let gain := (9 / 10) * prevGain + (1 - 9 / 10) * target
      ((xs.map (fun x => x * gain)).map clipUnit, gain)

/-- Compressor settings with `ratio = 1`, used by the counterexample. -/
def cfgRatioOne : CompressorCfg :=
  { lowThreshold := -20, highThreshold := 0, ratio := 1 }

/-- Compressor settings with `ratio = 2`. -/
def cfgRatioTwo : CompressorCfg :=
  { lowThreshold := -20, highThreshold := 0, ratio := 2 }

/-- A rational stand-in for `10^x` that is exact at the points the
concrete compressor theorems evaluate (`10^1 = 10`, and an arbitrary
value elsewhere). -/
def pow10At1 : ℚ → ℚ := fun x => if x = 1 then 10 else 0

/-- A rational stand-in for `log10` that is exact at the evaluated point
(`log10(1/100) = −2`). -/
def log10Cent : ℚ → ℚ := fun x => if x = 1 / 100 then -2 else 0

/-- A registered sound file with peak volume 2. -/
def sfPeak2 : SoundFileM := { id := "f", peakVolume := 2 }

/-- An app state with normalization on and file `sfPeak2` registered. -/
def appNorm : AppStateM :=
  { soundFiles := [sfPeak2], normalizeEnabled := true, masterVolume := 1 }

/-- A preset overriding layer "l" (volume 1/4) and its sound "s"
(volume 3/4). -/
def presetP : PresetM :=
  { id := "p",
    layers := [{ id := "l", volume := some (1 / 4),
                 sounds := some [{ id := "s", volume := some (3 / 4) }] }] }

/-- An environment with `presetP` active. -/
def envWithPreset : EnvM := { presets := [presetP], activePresetId := some "p" }

/-- An environment carrying no presets — the only kind the program can
actually construct (any non-empty preset list makes
`Environment.__post_init__` raise at audio.py line 512, which calls the
nonexistent `preset.setenvironment`; `Preset` defines `set_environment`,
so such environments are dropped by `AppState.from_dict`). -/
def envNoPreset : EnvM := { presets := [], activePresetId := none }

/-- A layer with base volume 1/2. -/
def layerL : LayerM := { id := "l", volume := 1 / 2 }

/-- A sound with base volume 1/2 referencing file "f". -/
def soundS : LayerSoundM := { id := "s", fileId := "f", volume := 1 / 2 }

/-! ## Reconciler (`routes/workspace.py`, `compare_workspaces`,
lines 303–426)

Only the environment-fade effects are modelled: the layer-level fade
injection (lines 360–417) mutates `LayerSound` fade state and the mixer
start/stop (lines 419–426) touches the thread — neither writes the
environments' `(fade_start, fade_end)`. -/

/-- An environment as `compare_workspaces` sees it: id, play state, and
the runtime fade window. Environments built by `AppState.from_dict`
always carry `fadeStart = fadeEnd = none`. -/
structure REnv where
  id : String
  playState : PlayState
  fadeStart : Option ℚ
  fadeEnd : Option ℚ
deriving DecidableEq, Repr

/-- View of the fade-relevant fields. -/
def REnv.toFade (e : REnv) : EnvFade :=
  { fadeStart := e.fadeStart, fadeEnd := e.fadeEnd, playState := e.playState }

/-- `Environment.start_fade` on a reconciler environment. -/
def startFadeR (e : REnv) (now dur : ℚ) : REnv :=
  { e with fadeStart := some now, fadeEnd := some (now + dur) }

/-- `Environment.update_fade_state` on a reconciler environment. -/
def updateFadeStateR (e : REnv) (now : ℚ) : REnv :=
  let f := updateFadeState e.toFade now
  { e with fadeStart := f.fadeStart, fadeEnd := f.fadeEnd }

/-- `next((e for e in prev_state.environments if e.id == new_env.id), None)`. -/
def findPrev (prev : List REnv) (i : String) : Option REnv :=
  prev.find? (fun p => p.id == i)

/-- The transition recorded for one new environment (lines 327–334):
present iff the previous state has a matching environment with a
different `play_state`. -/
def envTransition (prev : Option (List REnv)) (ne : REnv) :
    Option (PlayState × PlayState) :=
  match prev with
  | none => none
  | some ps =>
    match findPrev ps ne.id with
    | none => none
    | some pe =>
      if pe.playState ≠ ne.playState then some (pe.playState, ne.playState) else none

/-- The transition list, in new-state environment order. -/
def transitions (prev : Option (List REnv)) (next : List REnv) :
    List (REnv × PlayState × PlayState) :=
  next.filterMap (fun ne => (envTransition prev ne).map (fun t => (ne, t)))

/-- The crossfade test (lines 337–341): exactly two transitions, one
PLAYING→STOPPED and the other STOPPED→PLAYING (either order). -/
def isCrossfade (ts : List (REnv × PlayState × PlayState)) : Bool :=
  match ts with
  | [t1, t2] =>
    (decide (t1.2.1 = PlayState.PLAYING) && decide (t1.2.2 = PlayState.STOPPED) &&
      decide (t2.2.1 = PlayState.STOPPED) && decide (t2.2.2 = PlayState.PLAYING)) ||
    (decide (t2.2.1 = PlayState.PLAYING) && decide (t2.2.2 = PlayState.STOPPED) &&
      decide (t1.2.1 = PlayState.STOPPED) && decide (t1.2.2 = PlayState.PLAYING))
  | _ => false

/-- The transition handling for one environment (lines 344–358):
PLAYING→STOPPED starts a fade-out; STOPPED→PLAYING starts a fade only in
a crossfade and otherwise just runs `update_fade_state` (a no-op for the
freshly parsed environment); everything else is untouched. -/
def applyEnvTransition (prev : Option (List REnv)) (cross : Bool) (now dur : ℚ)
    (ne : REnv) : REnv :=
  match envTransition prev ne with
  | some (PlayState.PLAYING, PlayState.STOPPED) => startFadeR ne now dur
  | some (PlayState.STOPPED, PlayState.PLAYING) =>
    if cross then startFadeR ne now dur else updateFadeStateR ne now
  | _ => ne

/-- The environment-fade effect of `compare_workspaces(prev, new)`:
`dur` is `effects.fades.crossfade_duration` (time units). Nothing here —
nor anywhere else in the function — copies `(fade_start, fade_end)` from
the previous state onto the new one. -/
def compareWorkspacesFades (prev : Option (List REnv)) (next : List REnv)
    (now dur : ℚ) : List REnv :=
  let ts := transitions prev next
  let cross := isCrossfade ts
  next.map (applyEnvTransition prev cross now dur)

/-! ## Mixer frame (`mixer.py`, `AudioMixer._process_audio`,
lines 353–520: one iteration of the processing loop under the lock,
after the timing/connection/backpressure gates)

The DSP chain (`_apply_filters` → `_apply_compressor` →
`_apply_speech_dampening`, including the int32→float conversion) is
abstracted as the `dsp` parameter — its components are modelled
separately (`applyCompressorChannel`); loading a new runtime from disk
(`_get_or_load_layer`'s decode path) is abstracted as the `loadNew`
parameter returning the freshly decoded runtime, `none` when the file is
missing. -/

/-- A cached `LayerInfo`: its configuration plus mutable state. -/
structure CachedLayer where
  cfg : LayerCfg
  st : ChunkState

/-- A layer as the mixer iterates it: id, the `file_id` of each of its
sounds, and `selected_sound_index`. -/
structure MEnvLayer where
  id : String
  soundFileIds : List String
  selectedSoundIndex : Nat

/-- An environment in the mixer's app-state snapshot. -/
structure MEnv where
  id : String
  playState : PlayState
  fadeStart : Option ℚ
  fadeEnd : Option ℚ
  layers : List MEnvLayer

/-- View of the fade-relevant fields. -/
def MEnv.toFade (e : MEnv) : EnvFade :=
  { fadeStart := e.fadeStart, fadeEnd := e.fadeEnd, playState := e.playState }

/-- The app-state fields `_process_audio` consults. -/
structure MAppState where
  environments : List MEnv
  masterVolume : ℚ

/-- The result of one loop iteration: the updated runtime cache, the
refreshed `_env_states`, the running flag, and the int16 frame queued to
the transport (none when nothing was mixed). -/
structure FrameResult where
  cache : List (String × CachedLayer)
  envStates : List (String × PlayState)
  isRunning : Bool
  output : Option (List (Int × Int))

/-- `reset_position` (layer_info.py lines 127–138) followed by the
`_should_play = True` forced on a STOPPED→PLAYING reset (mixer.py
line 383). -/
def resetRuntime (cl : CachedLayer) : CachedLayer :=
  let st' := { cl.st with position := 0, audioPosition := 0, cooldownElapsed := 0,
                          inCooldown := false, shouldPlay := true }
  { cl with st := st' }

/-- Python `str.startswith`, computed on the character lists. -/
def charsLead : List Char → List Char → Bool
  | [], _ => true
  | _ :: _, [] => false
  | c :: cs, d :: ds => c == d && charsLead cs ds

/-- The cache-key search `cache_key.startswith(f"{layer.id}_")`. -/
def keyHasLayerId (layerId key : String) : Bool :=
  charsLead (layerId ++ "_").data key.data

/-- `selected_sound_index` clamp (mixer.py lines 376–377, 444–445). -/
def clampSelected (layer : MEnvLayer) : Nat :=
  if layer.soundFileIds.length ≤ layer.selectedSoundIndex then 0
  else layer.selectedSoundIndex

/-- The STOPPED→PLAYING layer reset (mixer.py lines 362–384): drop every
cached runtime for the layer, reload the selected sound fresh and reset
it with `_should_play = True`. -/
def resetEnvLayers (loadNew : String → Option CachedLayer)
    (cache : List (String × CachedLayer)) (env : MEnv) :
    List (String × CachedLayer) :=
  env.layers.foldl
    (fun c layer =>
      if layer.soundFileIds = [] then c
      else
        let c := c.filter (fun kv => !(keyHasLayerId layer.id kv.1))
        let fid := layer.soundFileIds.getD (clampSelected layer) ""
        match loadNew fid with
        | none => c
        | some cl => c ++ [(layer.id ++ "_" ++ fid, resetRuntime cl)])
    cache

/-- int32 mix accumulation `env_mix += chunk.astype(np.int32)`
(element-wise; the int32 headroom is modelled as unbounded `Int`). -/
def addChunks (a b : List (Int × Int)) : List (Int × Int) :=
  List.zipWith (fun p q => (p.1 + q.1, p.2 + q.2)) a b

/-- `env_mix_float = env_mix/32768.0; env_mix_float *= fade;
(env_mix_float * 32768.0).astype(np.int32)` — in exact arithmetic the
normalisation cancels, truncating `fade · x`. -/
def envFadeScale (fade : ℚ) (x : List (Int × Int)) : List (Int × Int) :=
  x.map (fun p => (ratTrunc (fade * p.1), ratTrunc (fade * p.2)))

/-- One layer of the per-environment mix loop (mixer.py lines 424–466):
skip layers without sounds; find the cached runtime by key prefix or load
a fresh one (storing it in the cache); call
`get_next_chunk(chunk_samples)` and return its chunk. -/
def processLayer (oracle : LoopOracle) (loadNew : String → Option CachedLayer)
    (cache : List (String × CachedLayer)) (layer : MEnvLayer) :
    List (String × CachedLayer) × Option (List (Int × Int)) :=
  if layer.soundFileIds = [] then (cache, none)
  else
    match cache.find? (fun kv => keyHasLayerId layer.id kv.1) with
    | some kv =>
      let r := getNextChunk kv.2.cfg oracle kv.2.st chunk_samples
      (cache.map (fun kv' => if kv'.1 == kv.1 then (kv'.1, { kv.2 with st := r.1 }) else kv'),
        some r.2)
    | none =>
      let fid := layer.soundFileIds.getD (clampSelected layer) ""
      match loadNew fid with
      | none => (cache, none)
      | some cl =>
        let r := getNextChunk cl.cfg oracle cl.st chunk_samples
        (cache ++ [(layer.id ++ "_" ++ fid, { cl with st := r.1 })], some r.2)

/-- One environment of the mix loop (mixer.py lines 414–476): mix its
layers into a zeroed `env_mix`; if any layer contributed, scale by the
environment's `fade_progress` and hand the contribution up. -/
def processEnv (oracle : LoopOracle) (loadNew : String → Option CachedLayer)
    (now : ℚ) (cache : List (String × CachedLayer)) (env : MEnv) :
    List (String × CachedLayer) × Option (List (Int × Int)) :=
  let init : List (String × CachedLayer) × List (Int × Int) × Nat :=
    (cache, List.replicate chunk_samples ((0 : Int), (0 : Int)), 0)
  let r := env.layers.foldl
    (fun acc layer =>
      let (c, mix, cnt) := acc
      match processLayer oracle loadNew c layer with
      | (c', none) => (c', mix, cnt)
      | (c', some chunk) => (c', addChunks mix chunk, cnt + 1))
    init
  if 0 < r.2.2 then (r.1, some (envFadeScale (fadeProgress env.toFade now) r.2.1))
  else (r.1, none)

/-- One iteration of `_process_audio` under the lock (mixer.py lines
353–520): refresh `_env_states` and reset layers on STOPPED→PLAYING
edges; collect playing/fading environments and the active soundboard
runtimes (`key.startswith("soundboard_") and _should_play and not
_is_finished`); stop the loop when both are empty; otherwise mix the
active environments (the soundboard runtimes are consulted **only** in
the emptiness check — no chunk is fetched from them, they are never mixed,
never marked finished and never removed), then apply the DSP chain,
master volume and int16 clip on the mixed frame when at least one layer
contributed. -/
def processFrame (oracle : LoopOracle) (loadNew : String → Option CachedLayer)
    (dsp : List (Int × Int) → List (ℚ × ℚ)) (app : MAppState)
    (cache : List (String × CachedLayer)) (envStates : List (String × PlayState))
    (now : ℚ) : FrameResult :=
  let currentEnvStates := app.environments.map (fun e => (e.id, e.playState))
  let cache := app.environments.foldl
    (fun c env =>
      if env.playState = PlayState.PLAYING ∧
          (envStates.find? (fun kv => kv.1 == env.id)).map Prod.snd
            = some PlayState.STOPPED then
        resetEnvLayers loadNew c env
      else c)
    cache
  let playingEnvs := app.environments.filter
    (fun e => e.playState = PlayState.PLAYING ∨ isFading e.toFade now = true)
  let soundboardLayers := cache.filter
    (fun kv => charsLead "soundboard_".data kv.1.data && kv.2.st.shouldPlay
      && !kv.2.st.isFinished)
  let activeEnvs := playingEnvs.filter (fun e => 0 < fadeProgress e.toFade now)
  if activeEnvs.isEmpty && soundboardLayers.isEmpty then
    { cache := cache, envStates := currentEnvStates, isRunning := false, output := none }
  else
    let init : List (String × CachedLayer) × List (Int × Int) × Nat :=
      (cache, List.replicate chunk_samples ((0 : Int), (0 : Int)), 0)
    let r := activeEnvs.foldl
      (fun acc env =>
        let (c, mix, cnt) := acc
        match processEnv oracle loadNew now c env with
        | (c', none) => (c', mix, cnt)
        | (c', some contribution) => (c', addChunks mix contribution, cnt + 1))
      init
    let output :=
      if 0 < r.2.2 then
        some (applyMasterAndClip app.masterVolume (dsp r.2.1))
      else none
    { cache := r.1, envStates := currentEnvStates, isRunning := true, output := output }

/-! ## Concrete runtimes used by the claim theorems -/

/-- A trivial randomness oracle (shuffle always draws 0, no environment
recheck), used for concrete evaluations. -/
def oracleDefault : LoopOracle := ⟨fun _ => 0, fun _ => none⟩

/-- The freshly initialised runtime state (`LayerInfo.__init__` /
`reset_position`): all positions and counters zero. -/
def stInit : ChunkState :=
  { position := 0, audioPosition := 0, activeSoundIndex := 0, shouldPlay := false,
    inCooldown := false, cooldownElapsed := 0, isFinished := false }

/-- A layer whose `loop_length_ms` is 20 ms, so its loop is exactly one
mixer chunk (960 samples at 48 kHz). -/
def cfgOneChunkLoop : LayerCfg :=
  { audioData := [], loopLengthMs := some 20, mode := LayerMode.SEQUENCE,
    selectedSoundIndex := 0, numSounds := 1, layerVolume := 1 }

/-- A two-sound SEQUENCE layer whose loop is one mixer chunk. -/
def cfgTwoSoundSeq : LayerCfg :=
  { audioData := [], loopLengthMs := some 20, mode := LayerMode.SEQUENCE,
    selectedSoundIndex := 0, numSounds := 2, layerVolume := 1 }

/-- A runtime mid-loop that is not playing this cycle. -/
def stNotPlayingMidLoop : ChunkState :=
  { position := 500, audioPosition := 0, activeSoundIndex := 0, shouldPlay := false,
    inCooldown := false, cooldownElapsed := 0, isFinished := false }

/-- The runtime `play_soundboard_sound` creates: a SINGLE-mode layer with
one sound and `loop_length_ms = None` ("Don't loop at all"), here with a
2-sample decoded audio buffer. -/
def cfgSoundboard : LayerCfg :=
  { audioData := [((5 : Int), (5 : Int)), ((6 : Int), (6 : Int))], loopLengthMs := none,
    mode := LayerMode.SINGLE, selectedSoundIndex := 0, numSounds := 1, layerVolume := 1 }

/-- The soundboard runtime after its audio has been fully consumed:
`audio_position = audio_length_samples`, still `_should_play = true` and
`_is_finished = false` (as initialised by `play_soundboard_sound`). -/
def stSbDone : ChunkState :=
  { position := 2, audioPosition := 2, activeSoundIndex := 0, shouldPlay := true,
    inCooldown := false, cooldownElapsed := 0, isFinished := false }

/-- A previous-state environment mid fade-out: STOPPED with an in-progress
window `(0, 100)`. -/
def prevFadingEnv : REnv :=
  { id := "e", playState := PlayState.STOPPED, fadeStart := some 0, fadeEnd := some 100 }

/-- The matching next-state environment as parsed by `AppState.from_dict`:
same id and play state, no fade window. -/
def nextSameState : REnv :=
  { id := "e", playState := PlayState.STOPPED, fadeStart := none, fadeEnd := none }

/-- The runtime state `play_soundboard_sound` installs: positions reset,
`_should_play = True`, `_is_finished = False`. -/
def stSbFresh : ChunkState :=
  { position := 0, audioPosition := 0, activeSoundIndex := 0, shouldPlay := true,
    inCooldown := false, cooldownElapsed := 0, isFinished := false }

/-- An app state with no environments (the soundboard-only scenario). -/
def appNoEnvs : MAppState := { environments := [], masterVolume := 1 }

/-- A runtime cache holding exactly one active soundboard runtime, as
after `play_soundboard_sound("s")`. -/
def sbCache : List (String × CachedLayer) :=
  [("soundboard_s", { cfg := cfgSoundboard, st := stSbFresh })]

end Orpheus

namespace Orpheus

/-! ## Theorems -/

theorem loopLengthSamples_pos (ms? : Option Nat) : 0 < loopLengthSamples ms? := by
  unfold loopLengthSamples SAMPLE_RATE
  match ms? with
  | none => decide
  | some 0 => decide
  | some (m + 1) =>
    simp only
    have h : 48 ≤ 48000 * (m + 1) / 1000 :=
      (Nat.le_div_iff_mul_le (by norm_num)).2 (by omega)
    omega

/-! ### C2 -/

/-- C2 counterexample: the mixer's frame is 20 ms, so `chunk_samples` is
960, not the claimed 1920 (and the target buffer is 100 ms, not 200 ms). -/
theorem C2_counterexample :
    chunk_samples ≠ 1920 ∧ CHUNK_MS ≠ 40 ∧ TARGET_BUFFER_MS ≠ 200 := by
  decide

/-- C2 (amended): the mixer's fixed audio constants are a 48000 Hz sample
rate, 2 channels, a 20 ms frame so that `chunk_samples = 960` samples per
frame, and a target transport buffer depth of 100 ms divided by the frame
length in milliseconds (= 5 frames). -/
theorem C2_constants :
    SAMPLE_RATE = 48000 ∧ CHANNELS = 2 ∧ CHUNK_MS = 20 ∧
      chunk_samples = 960 ∧ TARGET_BUFFER_MS = 100 ∧
      target_buffer_chunks = TARGET_BUFFER_MS / CHUNK_MS ∧
      target_buffer_chunks = 5 := by
  decide

/-! ### C10 -/

/-- Helper: the raw clamped progress is within `[0, 1]`. -/
theorem clamped_progress_mem (q : ℚ) : 0 ≤ max 0 (min 1 q) ∧ max 0 (min 1 q) ≤ 1 := by
  constructor
  · exact le_max_left 0 _
  · exact max_le (by norm_num) (min_le_left 1 q)

/-- C10: `Environment.fade_progress` always lies in `[0, 1]`, and whenever
no fade window is active (`is_fading` false or a missing timestamp) it is
exactly 1.0 for a PLAYING environment and exactly 0.0 for a STOPPED one. -/
theorem C10_fade_progress_bounds (e : EnvFade) (now : ℚ) :
    (0 ≤ fadeProgress e now ∧ fadeProgress e now ≤ 1) ∧
      (isFading e now = false ∨ e.fadeStart = none ∨ e.fadeEnd = none →
        fadeProgress e now = if e.playState = PlayState.PLAYING then 1 else 0) := by
  constructor
  · unfold fadeProgress
    split
    · split <;> norm_num
    · rename_i hno
      match hs : e.fadeStart, ht : e.fadeEnd with
      | some s, some t =>
        simp only
        have hb := clamped_progress_mem ((now - s) / (t - s))
        split
        · exact ⟨hb.1, hb.2⟩
        · constructor <;> [linarith [hb.2]; linarith [hb.1]]
      | some s, none => simp [hs, ht] at hno
      | none, some t => simp [hs, ht] at hno
      | none, none => simp [hs, ht] at hno
  · intro h
    unfold fadeProgress
    rw [if_pos h]

/-- C10 witness: a STOPPED environment with no fade window has progress 0. -/
theorem C10_fade_progress_bounds_witness :
    fadeProgress ⟨none, none, PlayState.STOPPED⟩ 5 = 0 := by
  have h := (C10_fade_progress_bounds ⟨none, none, PlayState.STOPPED⟩ 5).2
  simpa using h (Or.inl rfl)

/-! ### Evaluation lemmas for `get_next_chunk` -/

/-- `get_next_chunk` returns a chunk of exactly the requested length on
every path: the boundary-crossing path (whose `AttributeError` lands in
the `except` handler returning `np.zeros((chunk_size, CHANNELS))`), the
interior path with a raising volume step (same handler), and the interior
path that returns the assembled preallocated chunk. -/
theorem getNextChunk_length (cfg : LayerCfg) (oracle : LoopOracle)
    (st : ChunkState) (n : Nat) :
    (getNextChunk cfg oracle st n).2.length = n := by
  simp only [getNextChunk]
  repeat' split
  all_goals try dsimp only
  all_goals simp only [List.length_map, List.length_append, List.length_replicate,
    List.length_take, List.length_drop]
  all_goals omega

/-- On a boundary-crossing call the final state is: positions reset to 0,
the active sound index advanced, everything else untouched (the raise at
layer_info.py line 274 aborts the cooldown bookkeeping and the rest of the
call). -/
theorem getNextChunk_cross (cfg : LayerCfg) (oracle : LoopOracle)
    (st : ChunkState) (n : Nat)
    (hn : 0 < n) (hcross : loopLengthSamples cfg.loopLengthMs < st.position + n) :
    (getNextChunk cfg oracle st n).1
      = { st with position := 0, audioPosition := 0,
                  activeSoundIndex := updateActiveSoundIndex cfg st.activeSoundIndex } := by
  unfold getNextChunk
  rw [if_pos ⟨hn, hcross⟩]

/-! ### C4 -/

theorem cfgOneChunkLoop_L : loopLengthSamples cfgOneChunkLoop.loopLengthMs = 960 := rfl

/-- C4 (code bug): the claim — like the code's own comments
(layer_info.py lines 259 and 330, "Always increment position … by the full
amount") — requires `position_in_loop` to end at
`(before + n) mod loop_length_samples`, and the implementation does not
deliver it on either path. A boundary-crossing call resets the position
to 0 and then raises at line 274 (`self.layer.get_effective_cooldown_cycles()`
does not exist; the `Layer` property is `effective_cooldown_cycles`), so
the `except` handler leaves `_position = 0` where the claim requires the
remainder (960-sample loop, position 500, request 960: claimed 500,
actual 0). An interior call just adds the request, so a call ending
exactly at the boundary leaves `_position = loop_length_samples`, not 0
(position 0, request 960, loop 960: claimed 0, actual 960). -/
theorem C4_position_code_bug :
    (getNextChunk cfgOneChunkLoop oracleDefault stNotPlayingMidLoop 960).1.position = 0 ∧
      (stNotPlayingMidLoop.position + 960) % loopLengthSamples cfgOneChunkLoop.loopLengthMs
        = 500 ∧
      (0 : Nat) ≠ 500 ∧
      (getNextChunk cfgOneChunkLoop oracleDefault stInit 960).1.position = 960 ∧
      (stInit.position + 960) % loopLengthSamples cfgOneChunkLoop.loopLengthMs = 0 ∧
      (960 : Nat) ≠ 0 := by
  refine ⟨by decide, by decide, by decide, by decide, by decide, by decide⟩

/-! ### C9 -/

/-- C9: `get_next_chunk` always returns a chunk of exactly the requested
number of stereo samples — for every configuration, oracle, runtime state
and requested size, including when no audio was available or the runtime
ran past its audio. (The Python `except` path, lines 342–344 of
`layer_info.py`, likewise returns a zero chunk of the full shape; no path
returns `None`.) -/
theorem C9_chunk_shape (cfg : LayerCfg) (oracle : LoopOracle)
    (st : ChunkState) (n : Nat) :
    (getNextChunk cfg oracle st n).2.length = n :=
  getNextChunk_length cfg oracle st n

/-! ### C6 -/

/-- C6 counterexample: a SEQUENCE layer that did **not** play during the
completed cycle (`_should_play = false` throughout) still has its
`active_sound_index` advanced when the loop boundary is crossed —
`update_active_sound_index` is called unconditionally at the loop point
(and completes before the line-274 raise that ends the call). -/
theorem C6_counterexample :
    (getNextChunk cfgTwoSoundSeq oracleDefault stNotPlayingMidLoop 960).1.activeSoundIndex
      ≠ stNotPlayingMidLoop.activeSoundIndex := by
  decide

/-- C6 (amended): at a loop boundary `active_sound_index` is advanced
according to the layer's mode *unconditionally* — whether or not the layer
played during the completed cycle. In SEQUENCE mode the new index is
`(active + 1) mod len(sounds)` for every runtime state crossing exactly
one loop boundary, playing or not. -/
theorem C6_sequence_advance (cfg : LayerCfg) (oracle : LoopOracle)
    (st : ChunkState) (n : Nat)
    (hmode : cfg.mode = LayerMode.SEQUENCE)
    (hnum : 0 < cfg.numSounds)
    (hp : st.position ≤ loopLengthSamples cfg.loopLengthMs)
    (hcross : loopLengthSamples cfg.loopLengthMs < st.position + n)
    (honce : st.position + n ≤ 2 * loopLengthSamples cfg.loopLengthMs) :
    (getNextChunk cfg oracle st n).1.activeSoundIndex
      = (st.activeSoundIndex + 1) % cfg.numSounds := by
  have hn : 0 < n := by omega
  have hres : (getNextChunk cfg oracle st n).1
      = { st with position := 0, audioPosition := 0,
                  activeSoundIndex := updateActiveSoundIndex cfg st.activeSoundIndex } := by
    unfold getNextChunk
    rw [if_pos ⟨hn, hcross⟩]
  rw [hres]
  show updateActiveSoundIndex cfg st.activeSoundIndex = _
  unfold updateActiveSoundIndex
  rw [if_neg (by omega : ¬ cfg.numSounds = 0), hmode]
  have h2 : ¬ (cfg.numSounds ≤ (st.activeSoundIndex + 1) % cfg.numSounds) := by
    have := Nat.mod_lt (st.activeSoundIndex + 1) hnum
    omega
  simp only [if_neg h2]

/-- C6 witness: the two-sound SEQUENCE runtime advances 0 → 1 at the
boundary even though it never played. -/
theorem C6_sequence_advance_witness :
    (getNextChunk cfgTwoSoundSeq oracleDefault stNotPlayingMidLoop 960).1.activeSoundIndex
      = (stNotPlayingMidLoop.activeSoundIndex + 1) % cfgTwoSoundSeq.numSounds :=
  C6_sequence_advance cfgTwoSoundSeq oracleDefault stNotPlayingMidLoop 960
    rfl (by decide) (by decide) (by decide) (by decide)

/-! ### C5 -/

/-- C5: the code has no one-shot semantics. For the runtime that
`play_soundboard_sound` creates with `loop_length_ms = None` ("Don't loop
at all"), `loop_length_samples` silently becomes the 8-second default
(384000 samples) instead of a one-shot marker; and when
`audio_position ≥ audio_length_samples`, `get_next_chunk` does **not**
return `None` and does **not** set `_is_finished` — it returns a full
silent chunk (here via the raising volume step: the runtime is playing
with a nonempty sound list, so `self.volume` calls the nonexistent
`sound.get_effective_volume()` and the `except` handler returns zeros)
and leaves `_is_finished` untouched (it is never set to true anywhere),
so the claimed cache-removal trigger can never fire. -/
theorem C5_no_oneshot_semantics :
    loopLengthSamples cfgSoundboard.loopLengthMs = 384000 ∧
      (getNextChunk cfgSoundboard oracleDefault stSbDone 960).2
        = List.replicate 960 ((0 : Int), (0 : Int)) ∧
      (getNextChunk cfgSoundboard oracleDefault stSbDone 960).1.isFinished
        = stSbDone.isFinished := by
  refine ⟨by decide, rfl, by decide⟩

/-! ### C7 -/

/-- C7 (code bug): the claim — like `effective_volume`'s own docstring
("Get the effective volume for this sound, considering preset overrides")
— promises `(preset layer volume ?? layer volume) * (preset sound volume
?? sound volume)`, normalized by the file's peak (= 3/32 at the concrete
input below), but the implementation cannot produce any preset-override
value. `Layer.get_active_preset_layer` raises `AttributeError` at
audio.py line 446 (`preset_layer.base_layer`; the field is `_base_layer`)
on **every** matching override, so `effective_volume` raises whenever an
override exists — and an environment carrying presets cannot even be
constructed, because `Environment.__post_init__` calls the nonexistent
`preset.setenvironment` at line 512 (`Preset` defines `set_environment`),
making `AppState.from_dict` drop it. Only the no-preset base path runs,
returning `layer.volume * (sound.volume / peak_volume)`. `master_volume`
never enters `effective_volume` and is applied exactly once per sample at
the final mix stage, before the int16 clip. -/
theorem C7_preset_override_raises :
    effectiveVolume appNorm envWithPreset layerL soundS = PyResult.raised ∧
      effLayerVolume envWithPreset layerL = 1 / 4 ∧
      effSoundVolume envWithPreset layerL soundS = 3 / 4 ∧
      effLayerVolume envWithPreset layerL *
          (effSoundVolume envWithPreset layerL soundS / sfPeak2.peakVolume) = 3 / 32 ∧
      effectiveVolume appNorm envNoPreset layerL soundS
        = PyResult.ok (layerL.volume * (soundS.volume / sfPeak2.peakVolume)) ∧
      (∀ (m : ℚ) (app : AppStateM) (env : EnvM) (layer : LayerM) (sound : LayerSoundM),
        effectiveVolume { app with masterVolume := m } env layer sound
          = effectiveVolume app env layer sound) ∧
      (∀ (m : ℚ) (x : List (ℚ × ℚ)), applyMasterAndClip m x
        = x.map (fun p => (clipSample (p.1 * m), clipSample (p.2 * m)))) := by
  have hpk : (0 : ℚ) < sfPeak2.peakVolume := by norm_num [sfPeak2]
  refine ⟨rfl, rfl, rfl, ?_, ?_, fun m app env layer sound => rfl, fun m x => ?_⟩
  · show (1 / 4 : ℚ) * ((3 / 4) / 2) = 3 / 32
    norm_num
  · show PyResult.ok (layerL.volume *
        (if (0 : ℚ) < sfPeak2.peakVolume then soundS.volume / sfPeak2.peakVolume
         else soundS.volume)) = _
    rw [if_pos hpk]
  · simp [applyMasterAndClip, List.map_map]

/-! ### C8 -/

/-- The code's target-gain branches agree with the claim's three-case
description for every threshold configuration and peak level. -/
theorem compressorTargetGain_eq_spec (pow10 : ℚ → ℚ) (c : CompressorCfg) (peakDb : ℚ) :
    compressorTargetGain pow10 c peakDb = specTargetGain pow10 c peakDb := by
  unfold compressorTargetGain specTargetGain
  by_cases hb : peakDb ≤ c.lowThreshold
  · have hA : ¬ (c.lowThreshold < peakDb ∧ peakDb < c.highThreshold) := by
      intro h
      linarith [h.1]
    rw [if_neg hA, if_pos hb, if_pos hb]
  · by_cases hA : c.lowThreshold < peakDb ∧ peakDb < c.highThreshold
    · have hc : ¬ c.highThreshold ≤ peakDb := by linarith [hA.2]
      rw [if_pos hA, if_neg hb, if_neg hc]
    · have hb' : c.lowThreshold < peakDb := by push_neg at hb; exact hb
      have hc : c.highThreshold ≤ peakDb := by
        push_neg at hA
        exact hA hb'
      rw [if_neg hA, if_neg hb, if_neg hb, if_pos hc]

/-- C8 counterexample: with `ratio = 1` the compressor returns the chunk
untouched (early return at mixer.py line 137), but the claim's formulas
still prescribe an upward gain below the low threshold. Concretely, for a
channel `[0.01]` (peak −40 dB, `log10(1/100) = −2` and `10^1 = 10`
supplied exactly), thresholds −20/0 and ratio 1, the code yields
`([0.01], gain 1)` while the claimed smoothed gain is 1.9 and the claimed
output 0.019. -/
theorem C8_counterexample :
    applyCompressorChannel pow10At1 log10Cent cfgRatioOne 1 [1 / 100]
      ≠ (([(1 / 100 : ℚ)].map (fun x => x *
            ((9 / 10) * 1 + (1 - 9 / 10) *
              specTargetGain pow10At1 cfgRatioOne
                (20 * log10Cent (listPeak [1 / 100]))))).map clipUnit,
          (9 / 10) * 1 + (1 - 9 / 10) *
            specTargetGain pow10At1 cfgRatioOne
              (20 * log10Cent (listPeak [1 / 100]))) := by
  have hpeak : listPeak [(1 : ℚ) / 100] = 1 / 100 := by
    simp [listPeak, abs_of_nonneg]
  have hlog : log10Cent (1 / 100) = -2 := by
    simp [log10Cent]
  have hsp : specTargetGain pow10At1 cfgRatioOne (20 * log10Cent (listPeak [1 / 100])) = 10 := by
    rw [hpeak, hlog]
    unfold specTargetGain cfgRatioOne pow10At1
    norm_num
  have hcode : applyCompressorChannel pow10At1 log10Cent cfgRatioOne 1 [1 / 100]
      = ([1 / 100], 1) := by
    unfold applyCompressorChannel cfgRatioOne
    norm_num
  rw [hcode, hsp]
  intro h
  have h2 := congrArg Prod.snd h
  norm_num at h2

/-- C8 (amended): whenever `ratio ≠ 1` (with `ratio = 1` the compressor is
an early pass-through) and the channel's frame peak is nonzero (silent
channels are skipped, keeping their gain state), the compressor computes
the claimed target gain — 1.0 strictly between the thresholds,
`10^(((low − peak_dB)/ratio)/20)` for `peak_dB ≤ low`,
`10^((−(peak_dB − high)·(1 − 1/ratio))/20)` for `peak_dB ≥ high` — smooths
it as `0.9·previous + 0.1·target` per channel, multiplies, and clips the
output to `[−1, 1]`. -/
theorem C8_compressor_gain (pow10 log10 : ℚ → ℚ) (c : CompressorCfg)
    (prevGain : ℚ) (xs : List ℚ) (hr : c.ratio ≠ 1) (hp : listPeak xs ≠ 0) :
    applyCompressorChannel pow10 log10 c prevGain xs
      = ((xs.map (fun x => x *
            ((9 / 10) * prevGain + (1 - 9 / 10) *
              specTargetGain pow10 c (20 * log10 (listPeak xs))))).map clipUnit,
          (9 / 10) * prevGain + (1 - 9 / 10) *
            specTargetGain pow10 c (20 * log10 (listPeak xs))) := by
  unfold applyCompressorChannel
  rw [if_neg hr]
  simp only [if_neg hp]
  rw [compressorTargetGain_eq_spec]

/-- C8 witness: at ratio 2, thresholds −20/0, previous gain 1 and the
one-sample channel `[0.01]`, the compressor output is the claimed smoothed
gain applied and clipped (for any stand-in `log10`/`10^x`, here the
identity). -/
theorem C8_compressor_gain_witness :
    applyCompressorChannel id id cfgRatioTwo 1 [1 / 100]
      = (([(1 / 100 : ℚ)].map (fun x => x *
            ((9 / 10) * 1 + (1 - 9 / 10) *
              specTargetGain id cfgRatioTwo (20 * id (listPeak [1 / 100]))))).map clipUnit,
          (9 / 10) * 1 + (1 - 9 / 10) *
            specTargetGain id cfgRatioTwo (20 * id (listPeak [1 / 100]))) :=
  C8_compressor_gain id id cfgRatioTwo 1 [1 / 100]
    (by unfold cfgRatioTwo; norm_num)
    (by simp [listPeak, abs_of_nonneg])

/-! ### C3 -/

/-- C3 counterexample: the previous environment is mid-fade
(`fade_start = 0 ≤ now = 50 < fade_end = 100`) with unchanged play state,
yet after `compare_workspaces` the matching new environment carries **no**
fade timestamps — `(fade_start, fade_end)` are not copied. -/
theorem C3_counterexample :
    isFading prevFadingEnv.toFade 50 = true ∧
      compareWorkspacesFades (some [prevFadingEnv]) [nextSameState] 50 2 = [nextSameState] ∧
      nextSameState.fadeStart = none ∧ prevFadingEnv.fadeStart = some 0 ∧
      prevFadingEnv.fadeEnd = some 100 := by
  refine ⟨?_, ?_, rfl, rfl, rfl⟩
  · rfl
  · rfl

/-- C3 (amended): `compare_workspaces` never copies fade timestamps from
the previous state. An environment whose `play_state` matches its
previous counterpart's passes through reconciliation entirely unchanged —
it keeps the (absent) fade window it was parsed with, even when the
previous environment's fade is in progress; fade windows are only ever
created afresh for play-state transitions. -/
theorem C3_reconcile_drops_fades (prev next : List REnv) (now dur : ℚ)
    (ne pe : REnv) (hmem : ne ∈ next)
    (hfind : findPrev prev ne.id = some pe)
    (hsame : pe.playState = ne.playState) :
    (∀ cross : Bool, applyEnvTransition (some prev) cross now dur ne = ne) ∧
      ne ∈ compareWorkspacesFades (some prev) next now dur := by
  have htr : envTransition (some prev) ne = none := by
    show (match findPrev prev ne.id with
      | none => none
      | some pe =>
        if pe.playState ≠ ne.playState then some (pe.playState, ne.playState) else none)
      = none
    rw [hfind]
    simp [hsame]
  have happ : ∀ cross : Bool, applyEnvTransition (some prev) cross now dur ne = ne := by
    intro cross
    unfold applyEnvTransition
    rw [htr]
  refine ⟨happ, ?_⟩
  unfold compareWorkspacesFades
  exact List.mem_map.mpr ⟨ne, hmem, happ _⟩

/-- C3 witness: the mid-fade STOPPED environment of the counterexample
passes through unchanged. -/
theorem C3_reconcile_drops_fades_witness :
    (∀ cross : Bool, applyEnvTransition (some [prevFadingEnv]) cross 50 2 nextSameState
        = nextSameState) ∧
      nextSameState ∈ compareWorkspacesFades (some [prevFadingEnv]) [nextSameState] 50 2 :=
  C3_reconcile_drops_fades [prevFadingEnv] [nextSameState] 50 2 nextSameState prevFadingEnv
    (List.mem_singleton.mpr rfl) rfl rfl

/-! ### C1 -/

/-- C1: the processing loop never plays soundboard runtimes. With no
environments and one active soundboard runtime (`_should_play = True`,
`_is_finished = False`) the iteration keeps running (the runtime passes
the keep-alive filter), yet fetches no chunk from it, queues no output,
and leaves the cache — including the soundboard runtime and its state —
completely untouched; in particular no finished runtime is ever removed.
This holds for every randomness oracle, loader and DSP chain. -/
theorem C1_soundboard_never_mixed (oracle : LoopOracle)
    (loadNew : String → Option CachedLayer)
    (dsp : List (Int × Int) → List (ℚ × ℚ)) (now : ℚ) :
    sbCache.filter
        (fun kv => charsLead "soundboard_".data kv.1.data && kv.2.st.shouldPlay
          && !kv.2.st.isFinished)
        = sbCache ∧
      (processFrame oracle loadNew dsp appNoEnvs sbCache [] now).isRunning = true ∧
      (processFrame oracle loadNew dsp appNoEnvs sbCache [] now).output = none ∧
      (processFrame oracle loadNew dsp appNoEnvs sbCache [] now).cache = sbCache := by
  refine ⟨rfl, rfl, rfl, rfl⟩

end Orpheus
